import Mathlib

/-!
Verification of `chef/lib/chef/provider/package/yum-dump.py`, a helper script
that lists installed and available yum packages on stdout.

The script is sequential and short-lived, so it is embedded as pure functions
from an environment `Env` — the outcomes of the external backend (yum) calls
and the process state (effective uid, CLI flag) — to the produced stdout,
stderr, a trace of externally visible events, and the result (a return status
or an in-flight Python exception, modelled with `Except`).
-/

namespace YumDump

/-- A package record as returned by the backend: name, epoch, version,
release, architecture (all strings, printed verbatim). -/
structure Pkg where
  name : String
  epoch : String
  version : String
  release : String
  arch : String
deriving DecidableEq, Repr

/-- A package record together with the origin tag the script assigns to its
`type` attribute: "i" for a record of the installed list, "a" for one of the
available list. -/
structure TPkg where
  pkg : Pkg
  type : String
deriving DecidableEq, Repr

/-- The Python exception classes the script distinguishes. `configError`,
`lockError` and `repoError` stand for yum.Errors.ConfigError / LockError /
RepoError, `yumBaseError` for any other yum.Errors.YumBaseError, and
`valueError` for Python's builtin ValueError (not a yum error). -/
inductive PyErr where
  | configError (msg : String)
  | valueError (msg : String)
  | lockError (msg : String)
  | repoError (msg : String)
  | yumBaseError (msg : String)
deriving DecidableEq, Repr

/-- str(e): the message carried by the exception. -/
def PyErr.message : PyErr → String
  | .configError m | .valueError m | .lockError m | .repoError m | .yumBaseError m => m

/-- Does `except yum.Errors.LockError` catch this exception? -/
def PyErr.isLockError : PyErr → Bool
  | .lockError _ => true
  | _ => false

/-- Does `except yum.Errors.RepoError` catch this exception? -/
def PyErr.isRepoError : PyErr → Bool
  | .repoError _ => true
  | _ => false

/-- Does `except yum.Errors.YumBaseError` catch this exception? In yum's
Errors module ConfigError, LockError and RepoError all derive YumBaseError;
ValueError is Python's builtin and does not. -/
def PyErr.isYumBaseError : PyErr → Bool
  | .valueError _ => false
  | _ => true

/-- The two supported backend major versions (module global YUM_VER). -/
inductive YumVer where
  | v2
  | v3
deriving DecidableEq, Repr

/-- re.search(r"^3\.", v) (and likewise for "2"): the pattern is anchored at
the start of the string, so it tests exactly that the first two characters are
the major-version digit followed by a dot. -/
def verMatchL (c : Char) : List Char → Bool
  | a :: b :: _ => a == c && b == '.'
  | _ => false

/-- The probe applied to a version string's characters. -/
def verMatch (c : Char) (v : String) : Bool := verMatchL c v.data

/-- Diagnostic for an unsupported yum.__version__ string. -/
def versionErrMsg (v : String) : String :=
  "yum-dump Error: Can't match supported yum version (" ++ v ++ ")"

/-- The module-level version probe: version strings matching ^3\. select the
modern bindings, ^2\. the legacy ones, anything else is fatal (`none`). -/
def detectVer (v : String) : Option YumVer :=
  if verMatch '3' v then some .v3
  else if verMatch '2' v then some .v2
  else none

/-- Value of a digit run (most significant first). -/
def digitsVal (cs : List Char) : Nat :=
  cs.foldl (fun n c => 10 * n + (c.toNat - 48)) 0

/-- The numeric major version of a backend version string: the value of its
leading run of decimal digits (0 when the string starts with a non-digit). -/
def majorVersion (v : String) : Nat :=
  digitsVal (v.data.takeWhile Char.isDigit)

/-- Module constant YUM_PID_FILE. -/
def YUM_PID_FILE : String := "/var/run/yum.pid"

/-- Module constant LOCK_TIMEOUT: seconds to wait for exclusive access. -/
def LOCK_TIMEOUT : Nat := 10

/-- The session configuration the script writes into the yum session: dupe
suppression always forced off, cache mode from privilege and the flag. -/
structure Conf where
  showdupesfromrepos : Bool
  cache : Bool
deriving DecidableEq, Repr

/-- Result of setup(): status 1 after a caught configuration error, or the
configured session. -/
inductive SetupRes where
  | fail (status : Nat)
  | done (conf : Conf)
deriving DecidableEq, Repr

/-- setup(yb, options). `configErr` is the outcome of the backend's config
initialisation (v3: the preconf assignments and the `yb.conf` access inside
the try; v2: doConfigSetup): `none` when it succeeds, `some e` when it raises
`e`. Under v3 a ConfigError or ValueError is caught, printed and turned into
status 1; any other exception escapes the try. Under v2 nothing is caught.
On success both versions force showdupesfromrepos to False and set cache to
True for non-root, to the --cache flag for root. Returns the stderr lines it
prints and the status/session or escaping exception. -/
def setup (ver : YumVer) (euid : Nat) (cacheOpt : Bool) (configErr : Option PyErr) :
    List String × Except PyErr SetupRes :=
  let conf : Conf :=
    { showdupesfromrepos := false
      cache := if euid ≠ 0 then true else cacheOpt }
  match ver with
  | .v3 =>
    match configErr with
    | none => ([], .ok (.done conf))
    | some (.configError m) => (["yum-dump Config Error: " ++ m], .ok (.fail 1))
    | some (.valueError m) => (["yum-dump Options Error: " ++ m], .ok (.fail 1))
    | some e => ([], .error e)
  | .v2 =>
    match configErr with
    | none => ([], .ok (.done conf))
    | some e => ([], .error e)

/-- Externally visible events, in program order: a doLock call, a 1-second
sleep, a successful doLock, a dump_packages call, a successful closeRpmDB, a
doUnlock call, a successful doUnlock. -/
inductive Ev where
  | lockAttempt
  | slept
  | lockAcquired
  | dumpCalled
  | dbClosed
  | unlockAttempt
  | lockReleased
deriving DecidableEq, Repr

/-- Outcome of one doLock(YUM_PID_FILE) call: success, a raised
yum.Errors.LockError (the lock is held elsewhere), or any other raised
exception. -/
inductive LockRes where
  | ok
  | lockHeld (msg : String)
  | raise (e : PyErr)
deriving DecidableEq, Repr

/-- Did this attempt fail with a LockError? -/
def LockRes.isHeld : LockRes → Bool
  | .lockHeld _ => true
  | _ => false

/-- How the retry loop ended. -/
inductive LoopOut where
  | acquired
  | timeout
  | exn (e : PyErr)
deriving DecidableEq, Repr

/-- Did the loop end holding the lock (lock_obtained = True)? -/
def LoopOut.isAcquired : LoopOut → Bool
  | .acquired => true
  | _ => false

/-- The timeout diagnostic ("... in %d seconds ..." % LOCK_TIMEOUT). -/
def lockTimeoutMsg : String :=
  "yum-dump Locking Error! Couldn't obtain an exclusive yum lock in " ++
    toString LOCK_TIMEOUT ++ " seconds. Giving up."

/-- The retry loop of yum_dump: attempt doLock (outcome `f i` on the i-th
attempt, 0-based); on success break out of the loop; on LockError sleep 1
second, decrement the countdown and, when it reaches 0, print the timeout
diagnostic and return 200; any other exception propagates out of the loop.
`countdown` is initially LOCK_TIMEOUT. Returns the event trace, the stderr
lines and how the loop ended. -/
def lockLoop (f : Nat → LockRes) (i countdown : Nat) :
    List Ev × List String × LoopOut :=
  match countdown with
  | 0 => ([], [], .timeout)
  | c + 1 =>
    match f i with
    | .ok => ([.lockAttempt, .lockAcquired], [], .acquired)
    | .raise e => ([.lockAttempt], [], .exn e)
    | .lockHeld _ =>
      if c = 0 then
        ([.lockAttempt, .slept], [lockTimeoutMsg], .timeout)
      else
        let r := lockLoop f (i + 1) c
        (.lockAttempt :: .slept :: r.1, r.2.1, r.2.2)

/-- Tagging and merge in dump_packages: every installed record's type is set
to "i", every available record's to "a", and `all = db.available +
db.installed` (available first). -/
def taggedAll (installed available : List Pkg) : List TPkg :=
  available.map (fun p => ⟨p, "a"⟩) ++ installed.map (fun p => ⟨p, "i"⟩)

/-- all.sort(lambda x, y: cmp(x.name, y.name)): Python's list.sort is a
stable sort keyed here by the name field only. All stable sorts under the
same key agree, so it is embedded as the stable insertion sort. -/
def sortByName (l : List TPkg) : List TPkg :=
  l.insertionSort (fun a b => a.pkg.name ≤ b.pkg.name)

instance : IsTotal TPkg (fun a b => a.pkg.name ≤ b.pkg.name) :=
  ⟨fun a b => le_total a.pkg.name b.pkg.name⟩

instance : IsTrans TPkg (fun a b => a.pkg.name ≤ b.pkg.name) :=
  ⟨fun _ _ _ hab hbc => le_trans hab hbc⟩

/-- The six fields of one output line, in print order:
name, epoch, version, release, arch, type. -/
def lineFields (t : TPkg) : List String :=
  [t.pkg.name, t.pkg.epoch, t.pkg.version, t.pkg.release, t.pkg.arch, t.type]

/-- One output line: '%s %s %s %s %s %s' % (...): the six fields joined by
single spaces. -/
def fmtLine (t : TPkg) : String :=
  String.intercalate " " (lineFields t)

/-- The stdout lines a successful dump_packages prints for the backend's
installed and available lists. -/
def dumpLines (installed available : List Pkg) : List String :=
  (sortByName (taggedAll installed available)).map fmtLine

/-- The stdout/stderr/trace/result of one call, or of the whole yum_dump. -/
structure Out where
  stdout : List String
  stderr : List String
  trace : List Ev
  res : Except PyErr Nat
deriving Repr

/-- dump_packages(yb). `dumpRes` is the backend's response to the listing
calls (under v2 the doTsSetup/doRepoSetup/doSackSetup pre-steps are folded
into it, under both versions doPackageLists('all') is): either the
(installed, available) record lists or a raised backend exception. On success
it tags, merges, sorts by name, prints one line per record and returns 0. -/
def dump_packages (dumpRes : Except PyErr (List Pkg × List Pkg)) : Out :=
  match dumpRes with
  | .error e => ⟨[], [], [.dumpCalled], .error e⟩
  | .ok (installed, available) =>
    ⟨dumpLines installed available, [], [.dumpCalled], .ok 0⟩

/-- The unlock-failure diagnostic printed in the finally block. -/
def unlockErrMsg (m : String) : String := "yum-dump Unlock Error: " ++ m

/-- The finally block of yum_dump: closeRpmDB, then doUnlock if the lock was
obtained, the pair wrapped in `except Errors.LockError` which prints a
diagnostic and returns 200. A `return` inside a finally block replaces any
in-flight return value or exception, and so does an exception the finally
block raises; `none` means the finally block fell through, leaving the body's
result standing, `some r` that it replaced the result with `r`. -/
def cleanup (lockObtained : Bool) (closeRes unlockRes : Except PyErr Unit) :
    List Ev × List String × Option (Except PyErr Nat) :=
  match closeRes with
  | .error e =>
    if e.isLockError then ([], [unlockErrMsg e.message], some (.ok 200))
    else ([], [], some (.error e))
  | .ok _ =>
    if lockObtained then
      match unlockRes with
      | .ok _ => ([.dbClosed, .unlockAttempt, .lockReleased], [], none)
      | .error e =>
        if e.isLockError then
          ([.dbClosed, .unlockAttempt], [unlockErrMsg e.message], some (.ok 200))
        else
          ([.dbClosed, .unlockAttempt], [], some (.error e))
    else ([.dbClosed], [], none)

/-- The environment of one run: the process state (effective uid, --cache
flag) and the outcomes of every external backend call the run might make. -/
structure Env where
  euid : Nat
  cacheOpt : Bool
  configErr : Option PyErr
  lockTry : Nat → LockRes
  dumpRes : Except PyErr (List Pkg × List Pkg)
  closeRes : Except PyErr Unit
  unlockRes : Except PyErr Unit

/-- yum_dump(options): setup (a raised exception propagates, a nonzero status
is returned as is); non-root returns dump_packages directly, with no locking
and no finally block; root runs the retry loop and dump_packages inside
try/finally, the finally block being `cleanup` with lock_obtained true exactly
when the loop ended in acquisition. -/
def yum_dump (ver : YumVer) (env : Env) : Out :=
  let s := setup ver env.euid env.cacheOpt env.configErr
  match s.2 with
  | .error e => ⟨[], s.1, [], .error e⟩
  | .ok (.fail st) => ⟨[], s.1, [], .ok st⟩
  | .ok (.done _) =>
    if env.euid ≠ 0 then
      let d := dump_packages env.dumpRes
      ⟨d.stdout, s.1 ++ d.stderr, d.trace, d.res⟩
    else
      let l := lockLoop env.lockTry 0 LOCK_TIMEOUT
      let body : Out :=
        match l.2.2 with
        | .timeout => ⟨[], l.2.1, l.1, .ok 200⟩
        | .exn e => ⟨[], l.2.1, l.1, .error e⟩
        | .acquired =>
          let d := dump_packages env.dumpRes
          ⟨d.stdout, l.2.1 ++ d.stderr, l.1 ++ d.trace, d.res⟩
      let c := cleanup l.2.2.isAcquired env.closeRes env.unlockRes
      ⟨body.stdout, s.1 ++ body.stderr ++ c.2.1, body.trace ++ c.1,
        match c.2.2 with
        | none => body.res
        | some r => r⟩

/-- The observable result of a whole process run: exit code, stdout lines,
stderr lines, event trace. -/
structure Run where
  exit : Nat
  stdout : List String
  stderr : List String
  trace : List Ev
deriving Repr

/-- main(): parse --cache (the parsed flag is env.cacheOpt), run yum_dump,
catching yum.Errors.RepoError and then yum.Errors.YumBaseError, each mapped to
a diagnostic and status 1; together with the module-level `sys.exit(status)`.
An exception matching neither handler (ValueError) escapes main, and CPython
then prints a traceback and exits with code 1 — modelled as exit 1 with no
stderr line of the script's own. -/
def mainRun (ver : YumVer) (env : Env) : Run :=
  let o := yum_dump ver env
  match o.res with
  | .ok st => ⟨st, o.stdout, o.stderr, o.trace⟩
  | .error e =>
    if e.isRepoError then
      ⟨1, o.stdout, o.stderr ++ ["yum-dump Repository Error: " ++ e.message], o.trace⟩
    else if e.isYumBaseError then
      ⟨1, o.stdout, o.stderr ++ ["yum-dump General Error: " ++ e.message], o.trace⟩
    else
      ⟨1, o.stdout, o.stderr, o.trace⟩

/-- The whole script: the module-level version probe runs before main and
exits 1 with a diagnostic when yum.__version__ matches neither ^3\. nor ^2\.;
otherwise main runs with the detected bindings. -/
def program (yumVersion : String) (env : Env) : Run :=
  match detectVer yumVersion with
  | some ver => mainRun ver env
  | none => ⟨1, [], [versionErrMsg yumVersion], []⟩

/-- A run reaches enumeration: it is either non-privileged (no locking), or
privileged with the lock acquired on some attempt k < LOCK_TIMEOUT. -/
def reachesDump (env : Env) : Prop :=
  env.euid ≠ 0 ∨
    ∃ k, k < LOCK_TIMEOUT ∧ (∀ j, j < k → (env.lockTry j).isHeld = true) ∧
      env.lockTry k = LockRes.ok

/-- A concrete package record used by the witnesses. -/
def pkgBash : Pkg := ⟨"bash", "0", "4.2", "1", "x86_64"⟩

/-- A concrete non-root run where every backend call succeeds. -/
def baseEnv : Env :=
  { euid := 1000
    cacheOpt := false
    configErr := none
    lockTry := fun _ => .ok
    dumpRes := .ok ([pkgBash], [])
    closeRes := .ok ()
    unlockRes := .ok () }

/-- The same run as root. -/
def rootEnv : Env := { baseEnv with euid := 0 }

/-- A root run where the yum lock is never released by its other holder. -/
def busyEnv : Env := { rootEnv with lockTry := fun _ => LockRes.lockHeld "busy" }

/-- A root run where the lock is acquired on the third attempt. -/
def retryEnv : Env :=
  { rootEnv with lockTry := fun i => if i < 2 then LockRes.lockHeld "busy" else .ok }

/-- A root run where enumeration raises a RepoError and the final doUnlock
then fails with a LockError. -/
def stuckUnlockEnv : Env :=
  { retryEnv with
      dumpRes := .error (.repoError "down")
      unlockRes := .error (.lockError "stuck") }

/-- A root run whose backend config initialisation raises a ConfigError. -/
def cfgErrEnv : Env := { rootEnv with configErr := some (.configError "bad") }

/-! ### Helper lemmas -/

/-- The event trace of `k` consecutive failed (lock-held) attempts: each is a
doLock call followed by a 1-second sleep. -/
def heldRun : Nat → List Ev
  | 0 => []
  | k + 1 => Ev.lockAttempt :: Ev.slept :: heldRun k

lemma mem_heldRun {e : Ev} {k : Nat} (h : e ∈ heldRun k) :
    e = Ev.lockAttempt ∨ e = Ev.slept := by
  induction k with
  | zero => simp [heldRun] at h
  | succ k ih =>
    simp only [heldRun, List.mem_cons] at h
    rcases h with h | h | h
    · exact Or.inl h
    · exact Or.inr h
    · exact ih h

lemma heldRun_count_lockAttempt (k : Nat) :
    (heldRun k).count Ev.lockAttempt = k := by
  induction k with
  | zero => simp [heldRun]
  | succ k ih => simp [heldRun, List.count_cons, ih]

lemma heldRun_count_slept (k : Nat) : (heldRun k).count Ev.slept = k := by
  induction k with
  | zero => simp [heldRun]
  | succ k ih => simp [heldRun, List.count_cons, ih]

lemma setup_none (ver : YumVer) (euid : Nat) (flag : Bool) :
    setup ver euid flag none =
      ([], .ok (.done { showdupesfromrepos := false
                        cache := if euid ≠ 0 then true else flag })) := by
  cases ver <;> rfl

lemma lockLoop_acquired (f : Nat → LockRes) (k : Nat) :
    ∀ i c, k < c → (∀ j, j < k → (f (i + j)).isHeld = true) → f (i + k) = LockRes.ok →
      lockLoop f i c =
        (heldRun k ++ [Ev.lockAttempt, Ev.lockAcquired], [], LoopOut.acquired) := by
  induction k with
  | zero =>
    intro i c hk hheld hok
    match c, hk with
    | c + 1, _ =>
      rw [Nat.add_zero] at hok
      simp [lockLoop, hok, heldRun]
  | succ k ih =>
    intro i c hk hheld hok
    match c, hk with
    | c + 1, hk =>
      have h0 : (f i).isHeld = true := by
        have := hheld 0 (Nat.succ_pos k)
        simpa using this
      rcases hf : f i with _ | m | e <;> rw [hf] at h0 <;>
        simp [LockRes.isHeld] at h0
      have hc : ¬(c = 0) := by omega
      have hshift : ∀ j, j < k → (f (i + 1 + j)).isHeld = true := by
        intro j hj
        have e1 : i + 1 + j = i + (j + 1) := by omega
        rw [e1]
        exact hheld (j + 1) (by omega)
      have hok1 : f (i + 1 + k) = LockRes.ok := by
        have e1 : i + 1 + k = i + (k + 1) := by omega
        rw [e1]; exact hok
      have := ih (i + 1) c (by omega) hshift hok1
      simp [lockLoop, hf, hc, this, heldRun]

lemma lockLoop_timeout (f : Nat → LockRes) (c : Nat) :
    ∀ i, 0 < c → (∀ j, j < c → (f (i + j)).isHeld = true) →
      lockLoop f i c = (heldRun c, [lockTimeoutMsg], LoopOut.timeout) := by
  induction c with
  | zero => intro i h; omega
  | succ c ih =>
    intro i _ hheld
    have h0 : (f i).isHeld = true := by
      have := hheld 0 (by omega)
      simpa using this
    rcases hf : f i with _ | m | e <;> rw [hf] at h0 <;>
      simp [LockRes.isHeld] at h0
    by_cases hc : c = 0
    · subst hc
      simp [lockLoop, hf, heldRun]
    · have hshift : ∀ j, j < c → (f (i + 1 + j)).isHeld = true := by
        intro j hj
        have e1 : i + 1 + j = i + (j + 1) := by omega
        rw [e1]
        exact hheld (j + 1) (by omega)
      have := ih (i + 1) (by omega) hshift
      simp [lockLoop, hf, hc, this, heldRun]

lemma lockLoop_count_le (f : Nat → LockRes) (c : Nat) :
    ∀ i, (lockLoop f i c).1.count Ev.lockAttempt ≤ c ∧
      (lockLoop f i c).1.count Ev.slept ≤ c := by
  induction c with
  | zero => intro i; simp [lockLoop]
  | succ c ih =>
    intro i
    rcases hf : f i with _ | m | e <;> simp [lockLoop, hf, List.count_cons]
    by_cases hc : c = 0
    · simp [hc]
    · have := ih (i + 1)
      simp [hc, List.count_cons]
      omega

lemma cleanup_no_loop_events (b : Bool) (cr ur : Except PyErr Unit) :
    Ev.lockAttempt ∉ (cleanup b cr ur).1 ∧ Ev.slept ∉ (cleanup b cr ur).1 ∧
      Ev.dumpCalled ∉ (cleanup b cr ur).1 := by
  rcases cr with e | u
  · by_cases h : e.isLockError <;> simp [cleanup, h]
  · rcases ur with e | u <;> cases b <;> simp [cleanup]
    by_cases h : e.isLockError <;> simp [h]

lemma mainRun_trace (ver : YumVer) (env : Env) :
    (mainRun ver env).trace = (yum_dump ver env).trace := by
  rcases h : (yum_dump ver env).res with e | st <;> simp [mainRun, h]
  by_cases h1 : e.isRepoError <;> simp [h1]
  by_cases h2 : e.isYumBaseError <;> simp [h2]

lemma mainRun_stdout (ver : YumVer) (env : Env) :
    (mainRun ver env).stdout = (yum_dump ver env).stdout := by
  rcases h : (yum_dump ver env).res with e | st <;> simp [mainRun, h]
  by_cases h1 : e.isRepoError <;> simp [h1]
  by_cases h2 : e.isYumBaseError <;> simp [h2]

lemma mainRun_of_ok (ver : YumVer) (env : Env) (st : Nat)
    (h : (yum_dump ver env).res = .ok st) :
    mainRun ver env =
      ⟨st, (yum_dump ver env).stdout, (yum_dump ver env).stderr,
        (yum_dump ver env).trace⟩ := by
  simp [mainRun, h]

lemma yum_dump_nonroot (ver : YumVer) (env : Env)
    (h0 : env.euid ≠ 0) (hc : env.configErr = none) :
    yum_dump ver env = dump_packages env.dumpRes := by
  rcases hd : env.dumpRes with e | ⟨inst, avail⟩ <;>
    simp [yum_dump, hc, setup_none, h0, dump_packages, hd]

lemma yum_dump_acquired (ver : YumVer) (env : Env) (k : Nat)
    (h0 : env.euid = 0) (hc : env.configErr = none)
    (hk : k < LOCK_TIMEOUT)
    (hheld : ∀ j, j < k → (env.lockTry j).isHeld = true)
    (hok : env.lockTry k = LockRes.ok) :
    yum_dump ver env =
      ⟨(dump_packages env.dumpRes).stdout,
       (cleanup true env.closeRes env.unlockRes).2.1,
       (heldRun k ++ [Ev.lockAttempt, Ev.lockAcquired]) ++ [Ev.dumpCalled] ++
         (cleanup true env.closeRes env.unlockRes).1,
       match (cleanup true env.closeRes env.unlockRes).2.2 with
       | none => (dump_packages env.dumpRes).res
       | some r => r⟩ := by
  have hl := lockLoop_acquired env.lockTry k 0 LOCK_TIMEOUT hk
    (by simpa using hheld) (by simpa using hok)
  rcases hd : env.dumpRes with e | ⟨inst, avail⟩ <;>
    simp [yum_dump, hc, setup_none, h0, hl, hd, dump_packages,
      LoopOut.isAcquired, List.append_assoc]

lemma yum_dump_timeout (ver : YumVer) (env : Env)
    (h0 : env.euid = 0) (hc : env.configErr = none)
    (hheld : ∀ j, j < LOCK_TIMEOUT → (env.lockTry j).isHeld = true) :
    yum_dump ver env =
      ⟨[], [lockTimeoutMsg] ++ (cleanup false env.closeRes env.unlockRes).2.1,
       heldRun LOCK_TIMEOUT ++ (cleanup false env.closeRes env.unlockRes).1,
       match (cleanup false env.closeRes env.unlockRes).2.2 with
       | none => .ok 200
       | some r => r⟩ := by
  have hl := lockLoop_timeout env.lockTry LOCK_TIMEOUT 0
    (by norm_num [LOCK_TIMEOUT]) (by simpa using hheld)
  simp [yum_dump, hc, setup_none, h0, hl, LoopOut.isAcquired]

/-- The event trace of any run decomposes as the retry loop's events (empty
when the loop is not reached) followed by events that are neither doLock
calls nor sleeps. -/
lemma yum_dump_trace_shape (ver : YumVer) (env : Env) :
    ∃ evs tail, (yum_dump ver env).trace = evs ++ tail ∧
      (evs = [] ∨ evs = (lockLoop env.lockTry 0 LOCK_TIMEOUT).1) ∧
      Ev.lockAttempt ∉ tail ∧ Ev.slept ∉ tail := by
  rcases hc : env.configErr with _ | e
  · by_cases h0 : env.euid = 0
    · rcases hl : lockLoop env.lockTry 0 LOCK_TIMEOUT with ⟨evs, errs, out⟩
      have hclean := cleanup_no_loop_events out.isAcquired env.closeRes env.unlockRes
      rcases out with _ | _ | e
      · rcases hd : env.dumpRes with e | ⟨inst, avail⟩
        · refine ⟨evs, Ev.dumpCalled :: (cleanup true env.closeRes env.unlockRes).1,
            ?_, Or.inr (by simp [hl]), ?_, ?_⟩ <;>
            simp_all [yum_dump, hc, setup_none, h0, hl, hd, dump_packages,
              LoopOut.isAcquired]
        · refine ⟨evs, Ev.dumpCalled :: (cleanup true env.closeRes env.unlockRes).1,
            ?_, Or.inr (by simp [hl]), ?_, ?_⟩ <;>
            simp_all [yum_dump, hc, setup_none, h0, hl, hd, dump_packages,
              LoopOut.isAcquired]
      · refine ⟨evs, (cleanup false env.closeRes env.unlockRes).1,
          ?_, Or.inr (by simp [hl]), ?_, ?_⟩ <;>
          simp_all [yum_dump, hc, setup_none, h0, hl, LoopOut.isAcquired]
      · refine ⟨evs, (cleanup false env.closeRes env.unlockRes).1,
          ?_, Or.inr (by simp [hl]), ?_, ?_⟩ <;>
          simp_all [yum_dump, hc, setup_none, h0, hl, LoopOut.isAcquired]
    · rcases hd : env.dumpRes with e | ⟨inst, avail⟩ <;>
        exact ⟨[], [Ev.dumpCalled], by
          simp [yum_dump, hc, setup_none, h0, hd, dump_packages], Or.inl rfl,
          by simp, by simp⟩
  · cases ver <;> rcases e with m | m | m | m | m <;>
      exact ⟨[], [], by simp [yum_dump, hc, setup], Or.inl rfl, by simp, by simp⟩

lemma yum_dump_trace_nonroot (ver : YumVer) (env : Env) (h0 : env.euid ≠ 0) :
    (yum_dump ver env).trace = [] ∨ (yum_dump ver env).trace = [Ev.dumpCalled] := by
  rcases hc : env.configErr with _ | e
  · rw [yum_dump_nonroot ver env h0 hc]
    rcases hd : env.dumpRes with e | ⟨inst, avail⟩ <;> simp [dump_packages, hd]
  · cases ver <;> rcases e with m | m | m | m | m <;>
      simp [yum_dump, hc, setup]

lemma cleanup_count_zero (b : Bool) (cr ur : Except PyErr Unit) :
    (cleanup b cr ur).1.count Ev.lockAttempt = 0 ∧
      (cleanup b cr ur).1.count Ev.slept = 0 := by
  obtain ⟨h1, h2, -⟩ := cleanup_no_loop_events b cr ur
  exact ⟨List.count_eq_zero.mpr h1, List.count_eq_zero.mpr h2⟩

lemma major_of_verMatch3 (v : String) (h : verMatch '3' v = true) :
    majorVersion v = 3 := by
  rw [verMatch] at h
  rcases hd : v.data with _ | ⟨a, _ | ⟨b, t⟩⟩ <;> rw [hd] at h <;>
    simp [verMatchL] at h
  obtain ⟨rfl, rfl⟩ := h
  rw [majorVersion, hd, List.takeWhile_cons_of_pos (by decide),
    List.takeWhile_cons_of_neg (by decide)]
  decide

lemma major_of_verMatch2 (v : String) (h : verMatch '2' v = true) :
    majorVersion v = 2 := by
  rw [verMatch] at h
  rcases hd : v.data with _ | ⟨a, _ | ⟨b, t⟩⟩ <;> rw [hd] at h <;>
    simp [verMatchL] at h
  obtain ⟨rfl, rfl⟩ := h
  rw [majorVersion, hd, List.takeWhile_cons_of_pos (by decide),
    List.takeWhile_cons_of_neg (by decide)]
  decide

lemma stdout_of_reachesDump (ver : YumVer) (env : Env) (I A : List Pkg)
    (hc : env.configErr = none) (hr : reachesDump env)
    (hd : env.dumpRes = .ok (I, A)) :
    (mainRun ver env).stdout = dumpLines I A := by
  rw [mainRun_stdout]
  by_cases h0 : env.euid = 0
  · rcases hr with h | ⟨k, hk, hheld, hok⟩
    · exact absurd h0 h
    · rw [yum_dump_acquired ver env k h0 hc hk hheld hok]
      simp [dump_packages, hd]
  · rw [yum_dump_nonroot ver env h0 hc]
    simp [dump_packages, hd]

/-! ### The claims -/

/-- C1: in every privileged run whose exclusive lock is acquired on some
attempt k (k < 10 failures before it), the cleanup region runs on every exit
path of enumeration: the package database handle is closed and doUnlock is
called before exit; when doUnlock succeeds the lock is released, and when it
fails with a LockError a diagnostic is written to stderr and the exit status
is overridden to 200. -/
theorem lock_cleanup_on_all_paths (ver : YumVer) (env : Env) (k : Nat)
    (h0 : env.euid = 0) (hc : env.configErr = none)
    (hk : k < LOCK_TIMEOUT)
    (hheld : ∀ j, j < k → (env.lockTry j).isHeld = true)
    (hok : env.lockTry k = LockRes.ok)
    (hclose : env.closeRes = .ok ()) :
    Ev.dbClosed ∈ (mainRun ver env).trace ∧
    Ev.unlockAttempt ∈ (mainRun ver env).trace ∧
    (env.unlockRes = .ok () → Ev.lockReleased ∈ (mainRun ver env).trace) ∧
    (∀ m, env.unlockRes = .error (PyErr.lockError m) →
        (mainRun ver env).exit = 200 ∧
          unlockErrMsg m ∈ (mainRun ver env).stderr) := by
  have hy := yum_dump_acquired ver env k h0 hc hk hheld hok
  refine ⟨?_, ?_, ?_, ?_⟩
  · rw [mainRun_trace, hy]
    rcases hu : env.unlockRes with e | u
    · by_cases hl : e.isLockError <;> simp [cleanup, hclose, hu, hl]
    · simp [cleanup, hclose, hu]
  · rw [mainRun_trace, hy]
    rcases hu : env.unlockRes with e | u
    · by_cases hl : e.isLockError <;> simp [cleanup, hclose, hu, hl]
    · simp [cleanup, hclose, hu]
  · intro hu
    rw [mainRun_trace, hy]
    simp [cleanup, hclose, hu]
  · intro m hu
    have hres : (yum_dump ver env).res = .ok 200 := by
      rw [hy]
      simp [cleanup, hclose, hu, PyErr.isLockError]
    rw [mainRun_of_ok _ _ 200 hres]
    refine ⟨rfl, ?_⟩
    rw [hy]
    simp [cleanup, hclose, hu, PyErr.isLockError, PyErr.message]

/-- C1 witness: with the lock acquired on the third attempt the database is
closed and the lock released; when doUnlock instead fails with a LockError
the run exits 200 with the unlock diagnostic. -/
theorem lock_cleanup_on_all_paths_witness :
    (Ev.dbClosed ∈ (mainRun YumVer.v3 retryEnv).trace ∧
      Ev.lockReleased ∈ (mainRun YumVer.v3 retryEnv).trace) ∧
    ((mainRun YumVer.v3 stuckUnlockEnv).exit = 200 ∧
      unlockErrMsg "stuck" ∈ (mainRun YumVer.v3 stuckUnlockEnv).stderr) := by
  refine ⟨⟨?_, ?_⟩, ?_⟩
  · exact (lock_cleanup_on_all_paths YumVer.v3 retryEnv 2 rfl rfl (by decide)
      (by decide) (by decide) rfl).1
  · exact (lock_cleanup_on_all_paths YumVer.v3 retryEnv 2 rfl rfl (by decide)
      (by decide) (by decide) rfl).2.2.1 rfl
  · exact (lock_cleanup_on_all_paths YumVer.v3 stuckUnlockEnv 2 rfl rfl (by decide)
      (by decide) (by decide) rfl).2.2.2 "stuck" rfl

/-- C2: in every privileged run where all 10 lock attempts fail with a
lock-held error, the process prints the timeout diagnostic to stderr, exits
with code 200, emits no package line, and never calls enumeration. -/
theorem lock_timeout_exits_200 (ver : YumVer) (env : Env)
    (h0 : env.euid = 0) (hc : env.configErr = none)
    (hheld : ∀ j, j < LOCK_TIMEOUT → (env.lockTry j).isHeld = true)
    (hclose : env.closeRes = .ok ()) :
    (mainRun ver env).exit = 200 ∧ (mainRun ver env).stdout = [] ∧
    (mainRun ver env).stderr = [lockTimeoutMsg] ∧
    Ev.dumpCalled ∉ (mainRun ver env).trace := by
  have hy := yum_dump_timeout ver env h0 hc hheld
  have hres : (yum_dump ver env).res = .ok 200 := by
    rw [hy]
    simp [cleanup, hclose]
  rw [mainRun_of_ok _ _ 200 hres]
  refine ⟨rfl, ?_, ?_, ?_⟩ <;> rw [hy] <;> simp [cleanup, hclose]
  intro hmem
  rcases mem_heldRun hmem with h | h <;> simp at h

/-- C2 witness: the run whose lock never frees exits 200 with the timeout
diagnostic, no stdout, and no enumeration. -/
theorem lock_timeout_exits_200_witness :
    (mainRun YumVer.v3 busyEnv).exit = 200 ∧
    (mainRun YumVer.v3 busyEnv).stdout = [] ∧
    (mainRun YumVer.v3 busyEnv).stderr = [lockTimeoutMsg] ∧
    Ev.dumpCalled ∉ (mainRun YumVer.v3 busyEnv).trace :=
  lock_timeout_exits_200 YumVer.v3 busyEnv rfl rfl (by decide) rfl

/-- C3: in every non-root run the session's cache-only mode is forced true
whatever the --cache flag says, and no doLock call is ever made. -/
theorem nonroot_forces_cache_no_lock (ver : YumVer) (env : Env)
    (h : env.euid ≠ 0) :
    (∀ flag : Bool, setup ver env.euid flag none =
        ([], .ok (.done { showdupesfromrepos := false, cache := true }))) ∧
    Ev.lockAttempt ∉ (mainRun ver env).trace := by
  constructor
  · intro flag
    rw [setup_none]
    simp [h]
  · rw [mainRun_trace]
    rcases yum_dump_trace_nonroot ver env h with ht | ht <;> rw [ht] <;> simp

/-- C3 witness: a non-root run with the flag raised still gets cache = true,
and its trace holds no lock attempt. -/
theorem nonroot_forces_cache_no_lock_witness :
    setup YumVer.v3 baseEnv.euid true none =
      ([], .ok (.done { showdupesfromrepos := false, cache := true })) ∧
    Ev.lockAttempt ∉ (mainRun YumVer.v3 baseEnv).trace :=
  ⟨(nonroot_forces_cache_no_lock YumVer.v3 baseEnv (by decide)).1 true,
    (nonroot_forces_cache_no_lock YumVer.v3 baseEnv (by decide)).2⟩

/-- C6 counterexample: under the legacy (version-2) binding setup does not
catch a backend ConfigError and return a status — it raises the error
further, so the claim's "returns a distinguished configuration-failure status
without raising further ... under both bindings" fails. -/
theorem config_error_v2_raises :
    (setup YumVer.v2 0 false (some (PyErr.configError "bad"))).2 =
      Except.error (PyErr.configError "bad") := rfl

/-- C6 amended: a backend configuration error during setup yields process
exit code 1 under both bindings, but only the modern (version-3) binding
catches it inside setup, reports it and returns status 1; under the legacy
(version-2) binding it propagates out of setup and is caught by the top-level
general-error handler, which reports it and exits 1. -/
theorem config_error_exit1 (euid : Nat) (flag : Bool) (m : String) :
    (setup YumVer.v3 euid flag (some (PyErr.configError m)) =
        (["yum-dump Config Error: " ++ m], .ok (.fail 1))) ∧
    (setup YumVer.v3 euid flag (some (PyErr.valueError m)) =
        (["yum-dump Options Error: " ++ m], .ok (.fail 1))) ∧
    (∀ env : Env, env.configErr = some (PyErr.configError m) →
        (mainRun YumVer.v3 env).exit = 1 ∧
          (mainRun YumVer.v3 env).stderr = ["yum-dump Config Error: " ++ m]) ∧
    ((setup YumVer.v2 euid flag (some (PyErr.configError m))).2 =
        .error (PyErr.configError m)) ∧
    (∀ env : Env, env.configErr = some (PyErr.configError m) →
        (mainRun YumVer.v2 env).exit = 1 ∧
          (mainRun YumVer.v2 env).stderr = ["yum-dump General Error: " ++ m]) := by
  refine ⟨rfl, rfl, ?_, rfl, ?_⟩
  · intro env hcf
    have h : (yum_dump YumVer.v3 env).res = .ok 1 := by
      simp [yum_dump, hcf, setup]
    rw [mainRun_of_ok _ _ 1 h]
    exact ⟨rfl, by simp [yum_dump, hcf, setup]⟩
  · intro env hcf
    constructor <;>
      simp [mainRun, yum_dump, hcf, setup, PyErr.isRepoError,
        PyErr.isYumBaseError, PyErr.message]

/-- C6 witness: the concrete ConfigError run exits 1 under both bindings,
with the setup-caught diagnostic under v3 and the top-level general-error
diagnostic under v2. -/
theorem config_error_exit1_witness :
    ((mainRun YumVer.v3 cfgErrEnv).exit = 1 ∧
      (mainRun YumVer.v3 cfgErrEnv).stderr = ["yum-dump Config Error: bad"]) ∧
    ((mainRun YumVer.v2 cfgErrEnv).exit = 1 ∧
      (mainRun YumVer.v2 cfgErrEnv).stderr = ["yum-dump General Error: bad"]) :=
  ⟨(config_error_exit1 0 false "bad").2.2.1 cfgErrEnv rfl,
    (config_error_exit1 0 false "bad").2.2.2.2 cfgErrEnv rfl⟩

/-- C7: a backend version string whose numeric major version is neither 2
nor 3 makes the process print a diagnostic naming the string, emit no package
line, and exit with status 1. -/
theorem unsupported_version_exit1 (v : String) (env : Env)
    (h2 : majorVersion v ≠ 2) (h3 : majorVersion v ≠ 3) :
    program v env = ⟨1, [], [versionErrMsg v], []⟩ := by
  have hm3 : verMatch '3' v = false := by
    cases h : verMatch '3' v
    · rfl
    · exact absurd (major_of_verMatch3 v h) h3
  have hm2 : verMatch '2' v = false := by
    cases h : verMatch '2' v
    · rfl
    · exact absurd (major_of_verMatch2 v h) h2
  simp [program, detectVer, hm3, hm2]

/-- C7 witness: version string "1.0" exits 1 with its diagnostic and no
output. -/
theorem unsupported_version_exit1_witness :
    program "1.0" baseEnv = ⟨1, [], [versionErrMsg "1.0"], []⟩ :=
  unsupported_version_exit1 "1.0" baseEnv (by decide) (by decide)

/-- C9: when the lock was obtained, enumeration raises a backend exception
and the cleanup's doUnlock then fails with a LockError, the finally block's
return replaces the in-flight exception: the process exits 200 and stderr
holds only the unlock diagnostic — the enumeration error's diagnostic is
never written. -/
theorem unlock_failure_discards_enum_error (ver : YumVer) (env : Env)
    (k : Nat) (e : PyErr) (m : String)
    (h0 : env.euid = 0) (hc : env.configErr = none)
    (hk : k < LOCK_TIMEOUT)
    (hheld : ∀ j, j < k → (env.lockTry j).isHeld = true)
    (hok : env.lockTry k = LockRes.ok)
    (hd : env.dumpRes = .error e)
    (hclose : env.closeRes = .ok ())
    (hu : env.unlockRes = .error (PyErr.lockError m)) :
    (mainRun ver env).exit = 200 ∧
    (mainRun ver env).stderr = [unlockErrMsg m] ∧
    (mainRun ver env).stdout = [] ∧
    Ev.dumpCalled ∈ (mainRun ver env).trace := by
  have hy := yum_dump_acquired ver env k h0 hc hk hheld hok
  have hres : (yum_dump ver env).res = .ok 200 := by
    rw [hy]
    simp [cleanup, hclose, hu, PyErr.isLockError]
  rw [mainRun_of_ok _ _ 200 hres]
  refine ⟨rfl, ?_, ?_, ?_⟩ <;> rw [hy] <;>
    simp [cleanup, hclose, hu, dump_packages, hd, PyErr.isLockError, PyErr.message]

/-- C9 witness: RepoError from enumeration plus LockError from doUnlock give
exit 200 and only the unlock diagnostic, though enumeration was called. -/
theorem unlock_failure_discards_enum_error_witness :
    (mainRun YumVer.v3 stuckUnlockEnv).exit = 200 ∧
    (mainRun YumVer.v3 stuckUnlockEnv).stderr = [unlockErrMsg "stuck"] ∧
    (mainRun YumVer.v3 stuckUnlockEnv).stdout = [] ∧
    Ev.dumpCalled ∈ (mainRun YumVer.v3 stuckUnlockEnv).trace :=
  unlock_failure_discards_enum_error YumVer.v3 stuckUnlockEnv 2
    (.repoError "down") "stuck" rfl rfl (by decide) (by decide) (by decide)
    rfl rfl rfl

/-- C4: for every pair of backend lists the emitted line sequence is sorted
by the name field: pairwise, an earlier record's name is ≤ a later one's
under lexical string comparison. -/
theorem output_sorted_by_name (installed available : List Pkg) :
    List.Pairwise (fun a b : String => a ≤ b)
      ((sortByName (taggedAll installed available)).map (fun t => t.pkg.name)) := by
  rw [List.pairwise_map]
  exact List.sorted_insertionSort (fun a b => a.pkg.name ≤ b.pkg.name)
    (taggedAll installed available)

/-- C5: a successful run emits exactly |installed| + |available| lines, each
of which is the six fields name, epoch, version, release, arch, origin-code
joined by single spaces, with origin-code "i" for a record of the installed
set and "a" for one of the available set; empty sets produce no output and
exit status 0 (shown on both the non-root path and the root locked path). -/
theorem output_line_count_and_fields (installed available : List Pkg) :
    (dumpLines installed available).length =
      installed.length + available.length ∧
    (∀ l ∈ dumpLines installed available, ∃ p tag,
        l = String.intercalate " "
          [p.name, p.epoch, p.version, p.release, p.arch, tag] ∧
        ((tag = "i" ∧ p ∈ installed) ∨ (tag = "a" ∧ p ∈ available))) ∧
    dumpLines ([] : List Pkg) [] = [] ∧
    (∀ (ver : YumVer) (env : Env), env.configErr = none → env.euid ≠ 0 →
        env.dumpRes = .ok (installed, available) →
        (mainRun ver env).exit = 0 ∧
          (mainRun ver env).stdout = dumpLines installed available) ∧
    (∀ (ver : YumVer) (env : Env) (k : Nat), env.configErr = none →
        env.euid = 0 → k < LOCK_TIMEOUT →
        (∀ j, j < k → (env.lockTry j).isHeld = true) →
        env.lockTry k = LockRes.ok → env.closeRes = .ok () →
        env.unlockRes = .ok () →
        env.dumpRes = .ok (installed, available) →
        (mainRun ver env).exit = 0 ∧
          (mainRun ver env).stdout = dumpLines installed available) := by
  refine ⟨?_, ?_, rfl, ?_, ?_⟩
  · simp [dumpLines, sortByName, (List.perm_insertionSort
      (fun a b : TPkg => a.pkg.name ≤ b.pkg.name) _).length_eq, taggedAll]
    omega
  · intro l hl
    simp only [dumpLines, List.mem_map] at hl
    obtain ⟨t, ht, rfl⟩ := hl
    rw [sortByName] at ht
    replace ht := (List.perm_insertionSort
      (fun a b : TPkg => a.pkg.name ≤ b.pkg.name) _).mem_iff.mp ht
    simp only [taggedAll, List.mem_append, List.mem_map] at ht
    rcases ht with ⟨p, hp, rfl⟩ | ⟨p, hp, rfl⟩
    · exact ⟨p, "a", rfl, Or.inr ⟨rfl, hp⟩⟩
    · exact ⟨p, "i", rfl, Or.inl ⟨rfl, hp⟩⟩
  · intro ver env hc h0 hd
    have hy := yum_dump_nonroot ver env h0 hc
    have hres : (yum_dump ver env).res = .ok 0 := by
      rw [hy]
      simp [dump_packages, hd]
    rw [mainRun_of_ok _ _ 0 hres]
    refine ⟨rfl, ?_⟩
    rw [hy]
    simp [dump_packages, hd]
  · intro ver env k hc h0 hk hheld hok hclose hunlock hd
    have hy := yum_dump_acquired ver env k h0 hc hk hheld hok
    have hres : (yum_dump ver env).res = .ok 0 := by
      rw [hy]
      simp [cleanup, hclose, hunlock, dump_packages, hd]
    rw [mainRun_of_ok _ _ 0 hres]
    refine ⟨rfl, ?_⟩
    rw [hy]
    simp [dump_packages, hd]

/-- C5 witness: the spec's scenario — one installed bash record, nothing
available — emits exactly the line "bash 0 4.2 1 x86_64 i" and exits 0. -/
theorem output_line_count_and_fields_witness :
    (dumpLines [pkgBash] []).length = 1 ∧
    (mainRun YumVer.v3 baseEnv).exit = 0 ∧
    (mainRun YumVer.v3 baseEnv).stdout = dumpLines [pkgBash] [] ∧
    dumpLines [pkgBash] [] = ["bash 0 4.2 1 x86_64 i"] := by
  obtain ⟨he, hs⟩ := (output_line_count_and_fields [pkgBash] []).2.2.2.1
    YumVer.v3 baseEnv rfl (by decide) rfl
  exact ⟨by simpa using (output_line_count_and_fields [pkgBash] []).1,
    he, hs, by decide⟩

/-- C8: the emitted stdout is a deterministic function of the backend's
(installed, available) lists: any two runs that reach enumeration with the
same backend response produce the same line sequence, namely the sorted
dumpLines. -/
theorem enumeration_deterministic (ver₁ ver₂ : YumVer) (env₁ env₂ : Env)
    (I A : List Pkg)
    (hc₁ : env₁.configErr = none) (hc₂ : env₂.configErr = none)
    (hr₁ : reachesDump env₁) (hr₂ : reachesDump env₂)
    (hd₁ : env₁.dumpRes = .ok (I, A)) (hd₂ : env₂.dumpRes = .ok (I, A)) :
    (mainRun ver₁ env₁).stdout = dumpLines I A ∧
      (mainRun ver₁ env₁).stdout = (mainRun ver₂ env₂).stdout := by
  have h1 := stdout_of_reachesDump ver₁ env₁ I A hc₁ hr₁ hd₁
  have h2 := stdout_of_reachesDump ver₂ env₂ I A hc₂ hr₂ hd₂
  exact ⟨h1, h1.trans h2.symm⟩

/-- C8 witness: a non-root v3 run and a root v2 run that acquires the lock
on its third attempt print the same lines for the same backend state. -/
theorem enumeration_deterministic_witness :
    (mainRun YumVer.v3 baseEnv).stdout = dumpLines [pkgBash] [] ∧
      (mainRun YumVer.v3 baseEnv).stdout = (mainRun YumVer.v2 retryEnv).stdout :=
  enumeration_deterministic YumVer.v3 YumVer.v2 baseEnv retryEnv [pkgBash] []
    rfl rfl (Or.inl (by decide)) (Or.inr ⟨2, by decide, by decide, by decide⟩)
    rfl rfl

/-- C10: every privileged run makes at most 10 doLock attempts (the model's
retry loop is a total function, so it always terminates); when all 10 fail
with a lock-held error there are exactly 10 attempts and 10 one-second
sleeps — one after every failed attempt, the last included — and when the
lock is acquired on attempt k there are k + 1 attempts and k sleeps. -/
theorem lock_retry_bounded (ver : YumVer) (env : Env) (h0 : env.euid = 0) :
    (mainRun ver env).trace.count Ev.lockAttempt ≤ LOCK_TIMEOUT ∧
    (env.configErr = none →
      (∀ j, j < LOCK_TIMEOUT → (env.lockTry j).isHeld = true) →
      (mainRun ver env).trace.count Ev.lockAttempt = LOCK_TIMEOUT ∧
        (mainRun ver env).trace.count Ev.slept = LOCK_TIMEOUT) ∧
    (env.configErr = none → ∀ k, k < LOCK_TIMEOUT →
      (∀ j, j < k → (env.lockTry j).isHeld = true) →
      env.lockTry k = LockRes.ok →
      (mainRun ver env).trace.count Ev.lockAttempt = k + 1 ∧
        (mainRun ver env).trace.count Ev.slept = k) := by
  refine ⟨?_, ?_, ?_⟩
  · rw [mainRun_trace]
    obtain ⟨evs, tail, htr, hevs, hta, -⟩ := yum_dump_trace_shape ver env
    rw [htr, List.count_append]
    have htail : tail.count Ev.lockAttempt = 0 := List.count_eq_zero.mpr hta
    rcases hevs with rfl | rfl
    · simp [htail]
    · have := (lockLoop_count_le env.lockTry LOCK_TIMEOUT 0).1
      omega
  · intro hc hheld
    rw [mainRun_trace, yum_dump_timeout ver env h0 hc hheld]
    obtain ⟨hz1, hz2⟩ := cleanup_count_zero false env.closeRes env.unlockRes
    simp [List.count_append, heldRun_count_lockAttempt, heldRun_count_slept,
      hz1, hz2]
  · intro hc k hk hheld hok
    rw [mainRun_trace, yum_dump_acquired ver env k h0 hc hk hheld hok]
    obtain ⟨hz1, hz2⟩ := cleanup_count_zero true env.closeRes env.unlockRes
    simp [List.count_append, List.count_cons, heldRun_count_lockAttempt,
      heldRun_count_slept, hz1, hz2]

/-- C10 witness: the fully-contended run makes 10 attempts and 10 sleeps;
the run that succeeds on its third attempt makes 3 attempts and 2 sleeps. -/
theorem lock_retry_bounded_witness :
    ((mainRun YumVer.v3 busyEnv).trace.count Ev.lockAttempt = LOCK_TIMEOUT ∧
      (mainRun YumVer.v3 busyEnv).trace.count Ev.slept = LOCK_TIMEOUT) ∧
    ((mainRun YumVer.v3 retryEnv).trace.count Ev.lockAttempt = 3 ∧
      (mainRun YumVer.v3 retryEnv).trace.count Ev.slept = 2) :=
  ⟨(lock_retry_bounded YumVer.v3 busyEnv rfl).2.1 rfl (by decide),
    (lock_retry_bounded YumVer.v3 retryEnv rfl).2.2 rfl 2 (by decide)
      (by decide) (by decide)⟩

end YumDump
